import Mathlib

set_option autoImplicit false

/-!
Verification of the nurandom seed-distribution core against its specification.

The definitions below are a shallow embedding of the C++ sources:
* `rndm::SeedMaster<SEED>` from `nurandom/RandomUtils/Providers/SeedMaster.h`,
* `rndm::NuRandomService` from `nurandom/RandomUtils/NuRandomService.cc` and
  `NuRandomService.h`,
* `rndm::details::PerEventPolicy` from
  `nurandom/RandomUtils/Providers/PerEventPolicy.h`,
* `rndm::details::policyName` / `policyFromName` from
  `nurandom/RandomUtils/Providers/PolicyNames.cxx` and `PolicyNames.h`,
* `rndm::details::makeRandomSeedPolicy` from
  `nurandom/RandomUtils/Providers/PolicyFactory.h`.

Machine integers: `seed_t` is an unsigned 32-bit integer in the source; it is
modelled as `Nat`, with explicit `% 2 ^ 32` wrapping at the two places where the
code performs unsigned arithmetic on values that may exceed the width (hash
coercion and signed-offset addition). Exceptions thrown by the C++ code are
modelled with `Except Err`. The seeder callbacks (`std::function`) are modelled
by whether they are callable, plus an explicit trace of the invocations an
operation performs.
-/

namespace Nurandom

/-- Decidable equality for `Except` results, used to evaluate the embedded
operations on concrete inputs. -/
instance {ε α : Type} [DecidableEq ε] [DecidableEq α] :
    DecidableEq (Except ε α) := fun a b =>
  match a, b with
  | .error e, .error f =>
    if h : e = f then .isTrue (by rw [h])
    else .isFalse (by intro hc; injection hc with h2; exact h h2)
  | .error _, .ok _ => .isFalse (fun hc => Except.noConfusion hc)
  | .ok _, .error _ => .isFalse (fun hc => Except.noConfusion hc)
  | .ok x, .ok y =>
    if h : x = y then .isTrue (by rw [h])
    else .isFalse (by intro hc; injection hc with h2; exact h h2)

/-- Type of random engine seeds (`seed_t`, unsigned 32-bit in the source). -/
abbrev Seed := Nat

/-- Distinguished invalid seed value (`RandomSeedPolicyBase::InvalidSeed`, zero). -/
def InvalidSeed : Seed := 0

/-- Predicate for seed validity (`isSeedValid(s) = s != 0`). -/
def isSeedValid (s : Seed) : Bool := s != 0

/-- Modelled from the spec: `SeedMasterHelper::EngineId` (its header `EngineId.h`
is not under `src/`). An engine identity is a module label, an instance name and
a global-scope flag; equality is field-wise. -/
structure EngineId where
  moduleLabel : String
  instanceName : String
  global : Bool
deriving DecidableEq

/-- Error categories surfaced by the embedded code: `art::errors::LogicError`,
`art::errors::Configuration`, `art::errors::InvalidNumber`, `std::out_of_range`
(from `std::map::at`), `cet::exception`, and fhicl parameter-access failures. -/
inductive Err where
  | logicError
  | configError
  | invalidNumber
  | outOfRange
  | cetException
  | fhiclError
deriving DecidableEq

/-- Association-list model of `std::map<EngineId, α>`; only lookup, assignment,
`emplace` and traversal are exercised by the embedded code, so iteration order
is irrelevant to the claims. -/
abbrev SeedMap (α : Type) := List (EngineId × α)

/-- Lookup in the map (`map::find`). -/
def mapFind? {α : Type} (m : SeedMap α) (id : EngineId) : Option α :=
  match m with
  | [] => none
  | (k, v) :: rest => if k = id then some v else mapFind? rest id

/-- Assignment `m[id] = v` of `std::map`: overwrite if present, insert otherwise. -/
def mapInsert {α : Type} (m : SeedMap α) (id : EngineId) (v : α) : SeedMap α :=
  match m with
  | [] => [(id, v)]
  | (k, w) :: rest =>
    if k = id then (k, v) :: rest else (k, w) :: mapInsert rest id v

/-- Insertion `m.emplace(id, v)` of `std::map`: inserts only when no entry with
that key exists, otherwise leaves the map unchanged. -/
def mapEmplace {α : Type} (m : SeedMap α) (id : EngineId) (v : α) : SeedMap α :=
  match mapFind? m id with
  | some _ => m
  | none => mapInsert m id v

/-- Per-engine record `SeedMaster<SEED>::EngineInfo_t`. The `seeder`
`std::function` member is modelled by whether it is callable (`hasSeeder`);
`autoseed` is the negation of frozen, exactly as in the source. -/
structure EngineInfo where
  hasSeeder : Bool
  autoseed : Bool
deriving DecidableEq

/-- Frozen test of `EngineInfo_t` (`isFrozen() { return !autoseed; }`). -/
def EngineInfo.isFrozen (e : EngineInfo) : Bool := !e.autoseed

/-- Freezing of `EngineInfo_t` (`freeze() { autoseed = false; }` for the default
`doFreeze = true` argument, the only one used). -/
def EngineInfo.freeze (e : EngineInfo) : EngineInfo := { e with autoseed := false }

/-- Seeder installation of `EngineInfo_t` (`setSeeder`). -/
def EngineInfo.setSeeder (e : EngineInfo) (seeder : Bool) : EngineInfo :=
  { e with hasSeeder := seeder }

/-- Seeder execution `EngineInfo_t::applySeed(id, seed)`: the callback runs only
when a seeder is set; the performed invocations are returned as a trace. -/
def EngineInfo.applySeed (e : EngineInfo) (id : EngineId) (s : Seed) :
    List (EngineId × Seed) :=
  if e.hasSeeder then [(id, s)] else []

/-- Conditional seeder execution `EngineInfo_t::autoApplySeed(id, seed)`: applies
the seed unless the engine is frozen. -/
def EngineInfo.autoApplySeed (e : EngineInfo) (id : EngineId) (s : Seed) :
    List (EngineId × Seed) :=
  if !e.isFrozen then e.applySeed id s else []

/-- Modelled from the spec: `NuRandomServiceHelper::EventSeedInputData` (its
header `EventSeedInputData.h` is not under `src/`). The fields are the ones read
by `PerEventPolicy` and enumerated in the spec data model. -/
structure EventData where
  runNumber : Nat
  subRunNumber : Nat
  eventNumber : Nat
  time : Nat
  isTimeValid : Bool
  processName : String
  moduleLabel : String
deriving DecidableEq

/-- State of `rndm::SeedMaster<SEED>`. The polymorphic `policy_impl` member (a
`RandomSeedPolicyBase` instance chosen at construction) is modelled by its three
virtual entry points, carried as data of the state: `getSeed`, `getEventSeed`
(both of which may throw) and `yieldsUniqueSeeds`. -/
structure SeedMaster where
  policyGetSeed : EngineId → Except Err Seed
  policyGetEventSeed : EngineId → EventData → Except Err Seed
  policyYieldsUnique : Bool
  configuredSeeds : SeedMap Seed
  knownEventSeeds : SeedMap Seed
  currentSeeds : SeedMap Seed
  engineData : SeedMap EngineInfo

/-- Lookup helper `SeedMaster::getSeedFromMap`: a seed from the map, or
`InvalidSeed` if not present. -/
def SeedMaster.getSeedFromMap (seeds : SeedMap Seed) (id : EngineId) : Seed :=
  match mapFind? seeds id with
  | some s => s
  | none => InvalidSeed

/-- Observation `SeedMaster::getCurrentSeed`: non-mutating read of the current
seed map. -/
def SeedMaster.getCurrentSeed (sm : SeedMaster) (id : EngineId) : Seed :=
  SeedMaster.getSeedFromMap sm.currentSeeds id

/-- Registration test `SeedMaster::hasEngine`. -/
def SeedMaster.hasEngine (sm : SeedMaster) (id : EngineId) : Bool :=
  (mapFind? sm.engineData id).isSome

/-- Seeder test `SeedMaster::hasSeeder`. -/
def SeedMaster.hasSeeder (sm : SeedMaster) (id : EngineId) : Bool :=
  match mapFind? sm.engineData id with
  | some info => info.hasSeeder
  | none => false

/-- Registration `SeedMaster::registerSeeder`: `engineData[id].setSeeder(seeder)`
default-constructs the record when absent (seeder unset, autoseed true) and then
installs the seeder. -/
def SeedMaster.registerSeeder (sm : SeedMaster) (id : EngineId) (seeder : Bool) :
    SeedMaster :=
  let info :=
    match mapFind? sm.engineData id with
    | some i => i
    | none => { hasSeeder := false, autoseed := true }
  { sm with engineData := mapInsert sm.engineData id (info.setSeeder seeder) }

/-- Registration `SeedMaster::registerNewSeeder`: throws a logic error when the
engine is already registered, otherwise registers. -/
def SeedMaster.registerNewSeeder (sm : SeedMaster) (id : EngineId)
    (seeder : Bool) : Except Err SeedMaster :=
  if sm.hasEngine id then .error .logicError
  else .ok (sm.registerSeeder id seeder)

/-- Override `SeedMaster::freezeSeed`: `engineData.at(id).freeze()` (throwing
`std::out_of_range` when the engine is unknown), then writes both the
configured and the current seed maps. -/
def SeedMaster.freezeSeed (sm : SeedMaster) (id : EngineId) (seed : Seed) :
    Except Err SeedMaster :=
  match mapFind? sm.engineData id with
  | none => .error .outOfRange
  | some info =>
    .ok { sm with
          engineData := mapInsert sm.engineData id info.freeze,
          configuredSeeds := mapInsert sm.configuredSeeds id seed,
          currentSeeds := mapInsert sm.currentSeeds id seed }

/-- Collision check `SeedMaster::ensureUnique`: linear scan of the given map
excluding the engine itself; a match raises a logic error. -/
def SeedMaster.ensureUnique (id : EngineId) (seed : Seed)
    (seeds : SeedMap Seed) : Except Err Unit :=
  if seeds.any (fun p => p.1 != id && p.2 == seed) then .error .logicError
  else .ok ()

/-- Query `SeedMaster::getSeed(EngineId)`: return the configured seed if cached;
otherwise compute via the policy, run the uniqueness check when the policy
yields unique seeds, cache the result, and record it as current — overwriting
when valid, via `emplace` (no overwrite) when invalid. -/
def SeedMaster.getSeed (sm : SeedMaster) (id : EngineId) :
    Except Err (Seed × SeedMaster) :=
  match mapFind? sm.configuredSeeds id with
  | some s => .ok (s, sm)
  | none =>
    match sm.policyGetSeed id with
    | .error e => .error e
    | .ok seed =>
      match
        (if sm.policyYieldsUnique then
          SeedMaster.ensureUnique id seed sm.configuredSeeds
         else .ok ()) with
      | .error e => .error e
      | .ok _ =>
        if seed ≠ InvalidSeed then
          .ok (seed, { sm with
            configuredSeeds := mapInsert sm.configuredSeeds id seed,
            currentSeeds := mapInsert sm.currentSeeds id seed })
        else
          .ok (seed, { sm with
            configuredSeeds := mapInsert sm.configuredSeeds id seed,
            currentSeeds := mapEmplace sm.currentSeeds id seed })

/-- Query `SeedMaster::getEventSeed(data, id)`: like `getSeed` but on the
per-event cache; the uniqueness check additionally requires the computed seed to
be valid, and runs against the per-event cache. -/
def SeedMaster.getEventSeed (sm : SeedMaster) (data : EventData) (id : EngineId) :
    Except Err (Seed × SeedMaster) :=
  match mapFind? sm.knownEventSeeds id with
  | some s => .ok (s, sm)
  | none =>
    match sm.policyGetEventSeed id data with
    | .error e => .error e
    | .ok seed =>
      match
        (if (seed != InvalidSeed) && sm.policyYieldsUnique then
          SeedMaster.ensureUnique id seed sm.knownEventSeeds
         else .ok ()) with
      | .error e => .error e
      | .ok _ =>
        if seed ≠ InvalidSeed then
          .ok (seed, { sm with
            knownEventSeeds := mapInsert sm.knownEventSeeds id seed,
            currentSeeds := mapInsert sm.currentSeeds id seed })
        else
          .ok (seed, { sm with
            knownEventSeeds := mapInsert sm.knownEventSeeds id seed,
            currentSeeds := mapEmplace sm.currentSeeds id seed })

/-- Reseeding `SeedMaster::reseed(id)`: `engineData.at(id)` (throws when
unknown); a frozen engine returns `InvalidSeed` immediately; otherwise the
configured-branch seed is computed and, when valid, pushed through `applySeed`.
The third component is the trace of seeder invocations performed. -/
def SeedMaster.reseed (sm : SeedMaster) (id : EngineId) :
    Except Err (Seed × SeedMaster × List (EngineId × Seed)) :=
  match mapFind? sm.engineData id with
  | none => .error .outOfRange
  | some engineInfo =>
    if engineInfo.isFrozen then .ok (InvalidSeed, sm, [])
    else
      match sm.getSeed id with
      | .error e => .error e
      | .ok (seed, sm1) =>
        if seed ≠ InvalidSeed then .ok (seed, sm1, engineInfo.applySeed id seed)
        else .ok (seed, sm1, [])

/-- Reseeding `SeedMaster::reseedEvent(id, data)`: same shape as `reseed` but
through the per-event branch, pushing the seed through `autoApplySeed`. -/
def SeedMaster.reseedEvent (sm : SeedMaster) (id : EngineId) (data : EventData) :
    Except Err (Seed × SeedMaster × List (EngineId × Seed)) :=
  match mapFind? sm.engineData id with
  | none => .error .outOfRange
  | some engineInfo =>
    if engineInfo.isFrozen then .ok (InvalidSeed, sm, [])
    else
      match sm.getEventSeed data id with
      | .error e => .error e
      | .ok (seed, sm1) =>
        if seed ≠ InvalidSeed then .ok (seed, sm1, engineInfo.autoApplySeed id seed)
        else .ok (seed, sm1, [])

/-- Event-boundary reset `SeedMaster::onNewEvent`: clears the per-event cache. -/
def SeedMaster.onNewEvent (sm : SeedMaster) : SeedMaster :=
  { sm with knownEventSeeds := [] }

/-- Modelled from the spec: phase tokens of `NuRandomServiceHelper::ArtState`
(its header `ArtState.h` is not under `src/`). -/
inductive ArtPhase where
  | notStarted
  | inServiceConstructor
  | inModuleConstructor
  | inModuleBeginRun
  | inEvent
  | inModuleEvent
  | inEndJob
deriving DecidableEq

/-- Modelled from the spec: the part of `NuRandomServiceHelper::ArtState` the
adapter reads in the embedded operations — the phase token (`state()`) and the
current module label (`moduleLabel()`). -/
structure ArtState where
  state : ArtPhase
  moduleLabel : String
deriving DecidableEq

/-- State of the adapter `rndm::NuRandomService`: the owned `SeedMaster`
(member `seeds`) and the art-state tracker (member `state`). -/
structure NuRandomService where
  seeds : SeedMaster
  state : ArtState

/-- Identifier qualification `NuRandomService::qualify_engine_label(instanceName)`:
a module-scoped id with the current module label. -/
def NuRandomService.qualify_engine_label (svc : NuRandomService)
    (instanceName : String) : EngineId :=
  { moduleLabel := svc.state.moduleLabel, instanceName := instanceName,
    global := false }

/-- Query `NuRandomService::querySeed`: ask the seed master. -/
def NuRandomService.querySeed (svc : NuRandomService) (id : EngineId) :
    Except Err (Seed × NuRandomService) :=
  match svc.seeds.getSeed id with
  | .error e => .error e
  | .ok (s, sm) => .ok (s, { svc with seeds := sm })

/-- Override helper `NuRandomService::extractSeed`: a present, valid optional
seed is returned marked frozen; otherwise the seed comes from the master,
marked not frozen. -/
def NuRandomService.extractSeed (svc : NuRandomService) (id : EngineId)
    (seed : Option Seed) : Except Err ((Seed × Bool) × NuRandomService) :=
  match seed with
  | some v =>
    if v ≠ InvalidSeed then .ok ((v, true), svc)
    else
      match svc.querySeed id with
      | .error e => .error e
      | .ok (s, svc1) => .ok ((s, false), svc1)
  | none =>
    match svc.querySeed id with
    | .error e => .error e
    | .ok (s, svc1) => .ok ((s, false), svc1)

/-- Phase policing `NuRandomService::ensureValidState`: global registration only
in the service constructor, module registration only in a module constructor. -/
def NuRandomService.ensureValidState (svc : NuRandomService) (bGlobal : Bool) :
    Except Err Unit :=
  if bGlobal then
    if svc.state.state ≠ .inServiceConstructor then .error .logicError else .ok ()
  else
    if svc.state.state ≠ .inModuleConstructor then .error .logicError else .ok ()

/-- Registration step `NuRandomService::registerEngineIdAndSeeder`: phase check,
duplicate check, then `SeedMaster::registerNewSeeder`. -/
def NuRandomService.registerEngineIdAndSeeder (svc : NuRandomService)
    (id : EngineId) (seeder : Bool) : Except Err NuRandomService :=
  match svc.ensureValidState id.global with
  | .error e => .error e
  | .ok _ =>
    if svc.seeds.hasEngine id then .error .logicError
    else
      match svc.seeds.registerNewSeeder id seeder with
      | .error e => .error e
      | .ok sm => .ok { svc with seeds := sm }

/-- Seeding step `NuRandomService::seedEngine(id) { return seeds.reseed(id); }`. -/
def NuRandomService.seedEngine (svc : NuRandomService) (id : EngineId) :
    Except Err (Seed × NuRandomService × List (EngineId × Seed)) :=
  match svc.seeds.reseed id with
  | .error e => .error e
  | .ok (s, sm, calls) => .ok (s, { svc with seeds := sm }, calls)

/-- Freezing step `NuRandomService::freezeSeed`, forwarding to the master. -/
def NuRandomService.freezeSeed (svc : NuRandomService) (id : EngineId)
    (frozenSeed : Seed) : Except Err NuRandomService :=
  match svc.seeds.freezeSeed id frozenSeed with
  | .error e => .error e
  | .ok sm => .ok { svc with seeds := sm }

/-- Registration `NuRandomService::registerEngine(seeder, instance, seed)`:
qualifies the id, registers id and seeder, resolves the override through
`extractSeed`, seeds the engine (before freezing) through `seedEngine`, and
freezes at the override value when one was resolved. Returns the resolved seed
value, the new state and the trace of seeder invocations. -/
def NuRandomService.registerEngine (svc : NuRandomService) (seeder : Bool)
    (instanceName : String) (seed : Option Seed) :
    Except Err (Seed × NuRandomService × List (EngineId × Seed)) :=
  let id := svc.qualify_engine_label instanceName
  match svc.registerEngineIdAndSeeder id seeder with
  | .error e => .error e
  | .ok svc1 =>
    match svc1.extractSeed id seed with
    | .error e => .error e
    | .ok ((seedValue, frozen), svc2) =>
      match svc2.seedEngine id with
      | .error e => .error e
      | .ok (_, svc3, calls) =>
        if frozen then
          match svc3.freezeSeed id seedValue with
          | .error e => .error e
          | .ok svc4 => .ok (seedValue, svc4, calls)
        else .ok (seedValue, svc3, calls)

mutual
/-- Values of the modelled FHiCL parameter tree: integers, strings, booleans
and nested tables (mutually inductive with the binding sequences forming a
table, so that all functions on them stay structurally recursive). -/
inductive PSVal where
  | num : Int → PSVal
  | str : String → PSVal
  | bool : Bool → PSVal
  | tbl : PSFields → PSVal
deriving DecidableEq
/-- Sequence of key/value bindings of a modelled FHiCL table. -/
inductive PSFields where
  | nil : PSFields
  | cons : String → PSVal → PSFields → PSFields
deriving DecidableEq
end

/-- Modelled `fhicl::ParameterSet`: a sequence of key/value bindings. -/
abbrev ParameterSet := PSFields

/-- Builder turning a binding list into a modelled parameter set. -/
def psFieldsOf : List (String × PSVal) → PSFields
  | [] => .nil
  | (k, v) :: rest => .cons k v (psFieldsOf rest)

/-- Emptiness test `fhicl::ParameterSet::is_empty()`. -/
def PSFields.isEmpty : PSFields → Bool
  | .nil => true
  | .cons _ _ _ => false

mutual
/-- Structural size of a parameter value, used (with `psFieldsSize`) to bound
the recursion depth of the policy factory. -/
def psValSize : PSVal → Nat
  | .num _ => 1
  | .str _ => 1
  | .bool _ => 1
  | .tbl t => 1 + psFieldsSize t
/-- Structural size of a binding sequence. -/
def psFieldsSize : PSFields → Nat
  | .nil => 1
  | .cons _ v rest => 1 + psValSize v + psFieldsSize rest
end

/-- Key lookup in a modelled parameter set. -/
def psLookup (ps : ParameterSet) (key : String) : Option PSVal :=
  match ps with
  | .nil => none
  | .cons k v rest => if k = key then some v else psLookup rest key

/-- Access `pset.get<std::string>(key, default)`: the default when absent. -/
def psGetStringD (ps : ParameterSet) (key : String) (dflt : String) : String :=
  match psLookup ps key with
  | some (.str s) => s
  | _ => dflt

/-- Access `pset.get<int>(key, default)` for signed integers. -/
def psGetIntD (ps : ParameterSet) (key : String) (dflt : Int) : Int :=
  match psLookup ps key with
  | some (.num n) => n
  | _ => dflt

/-- Access `pset.get<bool>(key, default)`. -/
def psGetBoolD (ps : ParameterSet) (key : String) (dflt : Bool) : Bool :=
  match psLookup ps key with
  | some (.bool b) => b
  | _ => dflt

/-- Access `pset.get_if_present<seed_t>(key, seed)`: present when the key is
bound to a nonnegative integer (seeds are unsigned). -/
def psGetSeedIfPresent (ps : ParameterSet) (key : String) : Option Seed :=
  match psLookup ps key with
  | some (.num n) => if n < 0 then none else some n.toNat
  | _ => none

/-- Override lookup `NuRandomService::readSeedParameter(pset, pnames)`: return
the value of the first of the candidate parameters present in the set. -/
def NuRandomService.readSeedParameter (pset : ParameterSet)
    (pnames : List String) : Option Seed :=
  match pnames with
  | [] => none
  | key :: rest =>
    match psGetSeedIfPresent pset key with
    | some s => some s
    | none => NuRandomService.readSeedParameter pset rest

/-- Registration overload `NuRandomService::registerEngine(seeder, instance,
pset, pnames)`: resolves the override through `readSeedParameter` and delegates
to `registerEngine`. -/
def NuRandomService.registerEngineFromParameters (svc : NuRandomService)
    (seeder : Bool) (instanceName : String) (pset : ParameterSet)
    (pnames : List String) :
    Except Err (Seed × NuRandomService × List (EngineId × Seed)) :=
  svc.registerEngine seeder instanceName
    (NuRandomService.readSeedParameter pset pnames)

/-- Enumeration `rndm::details::Policy`, generated in `PolicyNames.h` by the
`NURANDOM_SEED_SERVICE_POLICIES` macro; `unDefined` is first (index 0). -/
inductive PolicyKind where
  | unDefined
  | autoIncrement
  | linearMapping
  | preDefinedOffset
  | preDefinedSeed
  | random
  | perEvent
deriving DecidableEq

/-- Underlying index of a `Policy` enumerator (the enum is `unsigned`-based and
declared in macro order). -/
def PolicyKind.toIndex : PolicyKind → Nat
  | .unDefined => 0
  | .autoIncrement => 1
  | .linearMapping => 2
  | .preDefinedOffset => 3
  | .preDefinedSeed => 4
  | .random => 5
  | .perEvent => 6

/-- Cast `static_cast<Policy>(index)` for the indexes that occur (all below the
number of policies; larger values never arise in the embedded code). -/
def policyKindOfIndex : Nat → PolicyKind
  | 0 => .unDefined
  | 1 => .autoIncrement
  | 2 => .linearMapping
  | 3 => .preDefinedOffset
  | 4 => .preDefinedSeed
  | 5 => .random
  | 6 => .perEvent
  | _ => .unDefined

/-- Name list built by `BuildPolicyNames()` in `PolicyNames.cxx` from the
`NURANDOM_SEED_SERVICE_POLICIES` macro, in enumerator order. -/
def policyNamesList : List String :=
  ["unDefined", "autoIncrement", "linearMapping", "preDefinedOffset",
   "preDefinedSeed", "random", "perEvent"]

/-- Naming function `rndm::details::policyName(policy)`: the name at the
enumerator's index, or a `cet::exception` when the index is out of range. -/
def policyName (policy : PolicyKind) : Except Err String :=
  if h : policy.toIndex < policyNamesList.length then
    .ok (policyNamesList.get ⟨policy.toIndex, h⟩)
  else .error .cetException

/-- Parsing function `rndm::details::policyFromName(name)`: linear search of the
name list; a missing name yields `unDefined`, and `unDefined` (also when named
explicitly, since it sits at index 0) is rejected with a `cet::exception`. -/
def policyFromName (name : String) : Except Err PolicyKind :=
  let policy :=
    match policyNamesList.findIdx? (fun n => n = name) with
    | some i => policyKindOfIndex i
    | none => PolicyKind.unDefined
  if policy ≠ PolicyKind.unDefined then .ok policy else .error .cetException

/-- Seed algorithms of `PerEventPolicy` (`SeedAlgo_t`): only
`EventTimestamp_v1` exists; `saUndefined` marks an unrecognized name. -/
inductive SeedAlgo where
  | saEventTimestamp_v1
  | saUndefined
deriving DecidableEq

/-- Constructed policy values returned by the factory. The two `perEvent`
variants mirror the `PerEventPolicy` members `algo`, `offset` and
`initSeedPolicy` (a `PolicyStruct_t`, i.e. a policy enumerator together with
the built policy); the optional nested policy is unfolded into the two
constructors `perEventP` (absent) and `perEventWithInitP` (present). The other
variants hold the configuration data named by the spec; their classes live in
`StandardPolicies.h` and `RandomPolicy.h`, which are not under `src/`. -/
inductive PolicyImpl where
  | autoIncrementP (baseSeed : Nat) (checkRange : Bool) (maxUniqueEngines : Nat)
  | linearMappingP (nJob : Nat) (checkRange : Bool) (maxUniqueEngines : Nat)
  | preDefinedOffsetP (baseSeed : Nat)
  | preDefinedSeedP
  | randomP (masterSeed : Option Nat)
  | perEventP (algo : SeedAlgo) (offset : Int)
  | perEventWithInitP (algo : SeedAlgo) (offset : Int) (initKind : PolicyKind)
      (initPolicy : PolicyImpl)
deriving DecidableEq

/-- Modelled from the spec: configuration of the `autoIncrement` policy
(`StandardPolicies.h` is not under `src/`): `baseSeed` required and
nonnegative, `checkRange` defaulting to true, `maxUniqueEngines` required when
`checkRange` is set. -/
def configureAutoIncrement (pset : ParameterSet) : Except Err PolicyImpl :=
  match psLookup pset "baseSeed" with
  | some (.num b) =>
    if b < 0 then .error .configError
    else
      let checkRange := psGetBoolD pset "checkRange" true
      if checkRange then
        match psLookup pset "maxUniqueEngines" with
        | some (.num m) =>
          if m < 0 then .error .configError
          else .ok (.autoIncrementP b.toNat checkRange m.toNat)
        | _ => .error .fhiclError
      else .ok (.autoIncrementP b.toNat checkRange 0)
  | _ => .error .fhiclError

/-- Modelled from the spec: configuration of the `linearMapping` policy
(`StandardPolicies.h` is not under `src/`): `nJob` required and nonnegative,
`checkRange` defaulting to true, `maxUniqueEngines` required when `checkRange`
is set. -/
def configureLinearMapping (pset : ParameterSet) : Except Err PolicyImpl :=
  match psLookup pset "nJob" with
  | some (.num n) =>
    if n < 0 then .error .configError
    else
      let checkRange := psGetBoolD pset "checkRange" true
      if checkRange then
        match psLookup pset "maxUniqueEngines" with
        | some (.num m) =>
          if m < 0 then .error .configError
          else .ok (.linearMappingP n.toNat checkRange m.toNat)
        | _ => .error .fhiclError
      else .ok (.linearMappingP n.toNat checkRange 0)
  | _ => .error .fhiclError

/-- Modelled from the spec: configuration of the `preDefinedOffset` policy
(`StandardPolicies.h` is not under `src/`): `baseSeed` required; the per-engine
offset table is read lazily at seed queries and is not needed here. -/
def configurePreDefinedOffset (pset : ParameterSet) : Except Err PolicyImpl :=
  match psLookup pset "baseSeed" with
  | some (.num b) =>
    if b < 0 then .error .configError else .ok (.preDefinedOffsetP b.toNat)
  | _ => .error .fhiclError

/-- Modelled from the spec: configuration of the `preDefinedSeed` policy
(`StandardPolicies.h` is not under `src/`): no required field; the per-engine
seed table is read lazily at seed queries. -/
def configurePreDefinedSeed (_pset : ParameterSet) : Except Err PolicyImpl :=
  .ok .preDefinedSeedP

/-- Modelled from the spec: configuration of the `random` policy
(`RandomPolicy.h` is not under `src/`): optional nonnegative `masterSeed`. -/
def configureRandom (pset : ParameterSet) : Except Err PolicyImpl :=
  match psLookup pset "masterSeed" with
  | some (.num m) =>
    if m < 0 then .error .configError else .ok (.randomP (some m.toNat))
  | _ => .ok (.randomP none)

/-- Algorithm-name resolution of `PerEventPolicy::configure` (lines setting
`algo`): the name defaults to "default", which selects `saDefault` (that is,
`saEventTimestamp_v1`); otherwise the name list (holding only
"EventTimestamp_v1") is scanned; an unrecognized name leaves `saUndefined`,
which is rejected with a configuration error. -/
def PerEventPolicy.parseAlgorithm (pset : ParameterSet) : Except Err SeedAlgo :=
  let algorithm_name := psGetStringD pset "algorithm" "default"
  let algo :=
    if algorithm_name = "default" then SeedAlgo.saEventTimestamp_v1
    else if algorithm_name = "EventTimestamp_v1" then SeedAlgo.saEventTimestamp_v1
    else SeedAlgo.saUndefined
  if algo = SeedAlgo.saUndefined then .error .configError else .ok algo

/-- Factory `rndm::details::makeRandomSeedPolicy(config)`: reads the `policy`
name (a missing name is a fhicl error), resolves it through `policyFromName`
(which throws on unknown names), and constructs the matching policy. The
`perEvent` branch inlines `PerEventPolicy::configure`: algorithm name, optional
`offset` (default 0), and an optional nested `initSeedPolicy` table, which when
non-empty is built by a recursive factory call (an exception from the nested
construction is caught and rethrown as a `cet::exception`). The C++ recursion
terminates because every nested configuration is a strict subterm; here it is
driven by a `depth` fuel initialized to `psFieldsSize config` by the wrapper
`makeRandomSeedPolicy` below: `psLookup_tbl_size` shows each nested table is
strictly smaller, so the fuel-exhausted branch is unreachable from the wrapper. -/
def makeRandomSeedPolicyRec : Nat → ParameterSet → Except Err (PolicyKind × PolicyImpl)
  | 0, _ => .error .cetException
  | Nat.succ depth, config =>
  match psLookup config "policy" with
  | some (.str name) =>
    match policyFromName name with
    | .error e => .error e
    | .ok kind =>
      match kind with
      | .unDefined => .error .cetException
      | .autoIncrement =>
        match configureAutoIncrement config with
        | .error e => .error e
        | .ok p => .ok (.autoIncrement, p)
      | .linearMapping =>
        match configureLinearMapping config with
        | .error e => .error e
        | .ok p => .ok (.linearMapping, p)
      | .preDefinedOffset =>
        match configurePreDefinedOffset config with
        | .error e => .error e
        | .ok p => .ok (.preDefinedOffset, p)
      | .preDefinedSeed =>
        match configurePreDefinedSeed config with
        | .error e => .error e
        | .ok p => .ok (.preDefinedSeed, p)
      | .random =>
        match configureRandom config with
        | .error e => .error e
        | .ok p => .ok (.random, p)
      | .perEvent =>
        match PerEventPolicy.parseAlgorithm config with
        | .error e => .error e
        | .ok algo =>
          let offset := psGetIntD config "offset" 0
          match psLookup config "initSeedPolicy" with
          | some (.tbl t) =>
            if t.isEmpty then .ok (.perEvent, .perEventP algo offset)
            else
              match makeRandomSeedPolicyRec depth t with
              | .error _ => .error .cetException
              | .ok inner =>
                .ok (.perEvent, .perEventWithInitP algo offset inner.1 inner.2)
          | _ => .ok (.perEvent, .perEventP algo offset)
  | _ => .error .fhiclError

/-- Entry point of the factory: runs the recursion with enough fuel for the
whole configuration tree. -/
def makeRandomSeedPolicy (config : ParameterSet) :
    Except Err (PolicyKind × PolicyImpl) :=
  makeRandomSeedPolicyRec (psFieldsSize config) config

/-- Configuration `PerEventPolicy::configure(pset)` as a standalone function:
algorithm name resolution, optional `offset`, and the optional nested
`initSeedPolicy` built through `makeRandomSeedPolicy` (the factory's `perEvent`
branch performs exactly these steps). -/
def PerEventPolicy.configure (pset : ParameterSet) : Except Err PolicyImpl :=
  match PerEventPolicy.parseAlgorithm pset with
  | .error e => .error e
  | .ok algo =>
    let offset := psGetIntD pset "offset" 0
    match psLookup pset "initSeedPolicy" with
    | some (.tbl t) =>
      if t.isEmpty then .ok (.perEventP algo offset)
      else
        match makeRandomSeedPolicy t with
        | .error _ => .error .cetException
        | .ok inner => .ok (.perEventWithInitP algo offset inner.1 inner.2)
    | _ => .ok (.perEventP algo offset)

/-- Event-id string `PerEventPolicy::UniqueEventIDString(info)`. -/
def UniqueEventIDString (info : EventData) : String :=
  "Run: " ++ toString info.runNumber ++ " Subrun: " ++ toString info.subRunNumber
    ++ " Event: " ++ toString info.eventNumber

/-- Event string `PerEventPolicy::UniqueEventString(info)`: event id plus
timestamp. -/
def UniqueEventString (info : EventData) : String :=
  UniqueEventIDString info ++ " Timestamp: " ++ toString info.time

/-- Modelled from the spec: `ValidSeed` of `RandomSeedPolicyBase.h` (not under
`src/`): the hash value is coerced to the unsigned 32-bit seed type and a
resulting zero is replaced by one, so that the returned seed is valid. -/
def ValidSeed (v : Nat) : Seed :=
  if v % 2 ^ 32 = 0 then 1 else v % 2 ^ 32

/-- Hash-to-seed conversion `PerEventPolicy::SeedFromHash`: `std::hash` of the
string made valid. The platform-dependent `std::hash<std::string>` is carried
as an explicit function argument. -/
def SeedFromHash (hash : String → Nat) (s : String) : Seed := ValidSeed (hash s)

/-- Algorithm `PerEventPolicy::EventTimestamp_v1(id, info)`: fails with an
`art::errors::InvalidNumber` exception when the event time is not valid;
otherwise hashes the string combining run, subrun, event, timestamp, process
name, module label and (when non-empty) instance name. -/
def EventTimestamp_v1 (hash : String → Nat) (id : EngineId) (info : EventData) :
    Except Err Seed :=
  if !info.isTimeValid then .error .invalidNumber
  else
    let s := UniqueEventString info ++ " Process: " ++ info.processName
      ++ " Module: " ++ id.moduleLabel
    let s1 := if id.instanceName ≠ "" then s ++ " Instance: " ++ id.instanceName
      else s
    .ok (SeedFromHash hash s1)

/-- Unsigned addition `seed + offset` performed at the end of
`PerEventPolicy::createEventSeed`: the signed offset is converted to the
unsigned 32-bit seed type, wrapping modulo `2 ^ 32`. -/
def addOffset (seed : Seed) (offset : Int) : Seed :=
  (((seed : Int) + offset) % (2 ^ 32 : Int)).toNat

/-- Per-event seed computation `PerEventPolicy::createEventSeed(id, info)`:
dispatch on the configured algorithm (`saEventTimestamp_v1` runs
`EventTimestamp_v1`; `saUndefined` raises a configuration error), then add the
configured offset. -/
def PerEventPolicy.createEventSeed (hash : String → Nat) (algo : SeedAlgo)
    (offset : Int) (id : EngineId) (info : EventData) : Except Err Seed :=
  match algo with
  | .saEventTimestamp_v1 =>
    match EventTimestamp_v1 hash id info with
    | .error e => .error e
    | .ok seed => .ok (addOffset seed offset)
  | .saUndefined => .error .configError

/-- Concrete engine id used by the scenario theorems: module "M", default
instance, module scope. -/
def idM : EngineId := { moduleLabel := "M", instanceName := "", global := false }

/-- Concrete event data used by the scenario theorems. -/
def evtTest : EventData :=
  { runNumber := 1, subRunNumber := 2, eventNumber := 3, time := 12345,
    isTimeValid := true, processName := "P", moduleLabel := "M" }

/-- Concrete event data with an invalid timestamp. -/
def evtNoTime : EventData :=
  { runNumber := 1, subRunNumber := 2, eventNumber := 3, time := 12345,
    isTimeValid := false, processName := "P", moduleLabel := "M" }

/-- Concrete fresh seed master: the policy yields configured seed 100 and event
seed 77 for every engine; nothing is registered and all caches are empty. -/
def smTest : SeedMaster :=
  { policyGetSeed := fun _ => .ok 100,
    policyGetEventSeed := fun _ _ => .ok 77,
    policyYieldsUnique := false,
    configuredSeeds := [], knownEventSeeds := [], currentSeeds := [],
    engineData := [] }

/-- Concrete master with engine `idM` registered (seeder set, not frozen) and
empty seed caches. -/
def smEngine : SeedMaster :=
  { smTest with engineData := [(idM, { hasSeeder := true, autoseed := true })] }

/-- Concrete master with engine `idM` frozen at seed 5 (seeder present): the
state produced by `smEngine.freezeSeed idM 5`. -/
def smFrozen : SeedMaster :=
  { smTest with
    configuredSeeds := [(idM, 5)], currentSeeds := [(idM, 5)],
    engineData := [(idM, { hasSeeder := true, autoseed := false })] }

/-- Concrete master with engine `idM` registered without a seeder and not
frozen. -/
def smNoSeeder : SeedMaster :=
  { smTest with engineData := [(idM, { hasSeeder := false, autoseed := true })] }

/-- Concrete master whose state `smTest.getSeed idM` produces: the policy seed
100 cached as configured and recorded as current. -/
def smAfterGetSeed : SeedMaster :=
  { smTest with configuredSeeds := [(idM, 100)], currentSeeds := [(idM, 100)] }

/-- Concrete master whose policy computes `InvalidSeed` for both the configured
and the per-event branch, with a pre-existing current seed 5 for `idM`. -/
def smZeroPolicy : SeedMaster :=
  { policyGetSeed := fun _ => .ok 0,
    policyGetEventSeed := fun _ _ => .ok 0,
    policyYieldsUnique := false,
    configuredSeeds := [], knownEventSeeds := [], currentSeeds := [(idM, 5)],
    engineData := [] }

/-- State of `smZeroPolicy` after `getSeed idM`: the invalid seed is cached as
configured, while the current entry is untouched (`emplace` does not
overwrite). -/
def smZeroAfterGetSeed : SeedMaster :=
  { smZeroPolicy with configuredSeeds := [(idM, 0)] }

/-- State of `smZeroPolicy` after `getEventSeed evtTest idM`: the invalid seed
is cached in the per-event map, while the current entry is untouched. -/
def smZeroAfterGetEventSeed : SeedMaster :=
  { smZeroPolicy with knownEventSeeds := [(idM, 0)] }

/-- Concrete master of a configured-seed style policy: `idM` already holds the
valid configured and current seed 100, while the per-event branch computes
`InvalidSeed`. -/
def smMixedPolicy : SeedMaster :=
  { policyGetSeed := fun _ => .ok 100,
    policyGetEventSeed := fun _ _ => .ok 0,
    policyYieldsUnique := false,
    configuredSeeds := [(idM, 100)], knownEventSeeds := [],
    currentSeeds := [(idM, 100)],
    engineData := [] }

/-- State of `smMixedPolicy` after `getEventSeed evtTest idM`: the invalid
per-event seed is cached, while the current entry keeps the valid seed 100. -/
def smMixedAfterEventSeed : SeedMaster :=
  { smMixedPolicy with knownEventSeeds := [(idM, 0)] }

/-- Concrete adapter state: fresh master, module-construction phase, current
module "M". -/
def svcTest : NuRandomService :=
  { seeds := smTest,
    state := { state := .inModuleConstructor, moduleLabel := "M" } }

/-- Concrete module configuration `{ Seed: 0, MySeed: 7 }`. -/
def psetSeedZero : ParameterSet :=
  psFieldsOf [("Seed", .num 0), ("MySeed", .num 7)]

/-- Concrete service configuration: a `perEvent` policy whose nested
`initSeedPolicy` names `perEvent` again. -/
def cfgNestedPerEvent : ParameterSet :=
  psFieldsOf
    [("policy", .str "perEvent"),
     ("initSeedPolicy", .tbl (psFieldsOf [("policy", .str "perEvent")]))]

/-! Helper lemmas about the map operations and the embedding. -/

theorem mapFind?_insert_self {α : Type} (m : SeedMap α) (id : EngineId) (v : α) :
    mapFind? (mapInsert m id v) id = some v := by
  induction m with
  | nil => simp [mapInsert, mapFind?]
  | cons hd rest ih =>
    by_cases h : hd.1 = id
    · simp [mapInsert, mapFind?, h]
    · simp [mapInsert, mapFind?, h, ih]

theorem mapFind?_emplace_of_present {α : Type} (m : SeedMap α) (id : EngineId)
    (v w : α) (h : mapFind? m id = some w) :
    mapFind? (mapEmplace m id v) id = some w := by
  unfold mapEmplace
  rw [h]
  exact h

theorem mapFind?_emplace_of_absent {α : Type} (m : SeedMap α) (id : EngineId)
    (v : α) (h : mapFind? m id = none) :
    mapFind? (mapEmplace m id v) id = some v := by
  unfold mapEmplace
  rw [h]
  exact mapFind?_insert_self m id v

theorem psLookup_tbl_size {key : String} {t : PSFields} :
    ∀ {ps : ParameterSet}, psLookup ps key = some (.tbl t) →
      psFieldsSize t < psFieldsSize ps
  | .nil, h => by simp [psLookup] at h
  | .cons k v rest, h => by
    simp only [psLookup] at h
    by_cases hk : k = key
    · rw [if_pos hk] at h
      injection h with hv
      subst hv
      simp only [psFieldsSize, psValSize]
      omega
    · rw [if_neg hk] at h
      have := psLookup_tbl_size h
      simp only [psFieldsSize]
      omega

theorem getSeed_ok_configured (sm sm1 : SeedMaster) (id : EngineId) (s : Seed)
    (h : sm.getSeed id = .ok (s, sm1)) :
    mapFind? sm1.configuredSeeds id = some s := by
  unfold SeedMaster.getSeed at h
  split at h
  · rename_i v hc
    injection h with h2
    injection h2 with ha hb
    subst ha
    subst hb
    exact hc
  · rename_i hc
    split at h
    · exact absurd h (by simp)
    · rename_i seed hp
      split at h
      · exact absurd h (by simp)
      · split at h
        · injection h with h2
          injection h2 with ha hb
          subst ha
          subst hb
          exact mapFind?_insert_self sm.configuredSeeds id seed
        · injection h with h2
          injection h2 with ha hb
          subst ha
          subst hb
          exact mapFind?_insert_self sm.configuredSeeds id seed

/-- C7: `getSeed(id)` is idempotent: once a call has returned seed `s` and
state `sm1`, calling `getSeed(id)` again returns exactly `s` through the
configured-seed cache, without consulting the policy and without changing the
state. -/
theorem getSeed_idempotent (sm sm1 : SeedMaster) (id : EngineId) (s : Seed)
    (h : sm.getSeed id = .ok (s, sm1)) : sm1.getSeed id = .ok (s, sm1) := by
  have hconf := getSeed_ok_configured sm sm1 id s h
  unfold SeedMaster.getSeed
  rw [hconf]

/-- Witness for C7: on the concrete fresh master the first `getSeed` returns
the policy seed 100 and the second call returns the same result unchanged. -/
theorem getSeed_idempotent_witness :
    smAfterGetSeed.getSeed idM = .ok (100, smAfterGetSeed) :=
  getSeed_idempotent smTest smAfterGetSeed idM 100 rfl

/-- C9: round-trip of the policy name maps: for every policy enumerator other
than `unDefined`, `policyFromName` applied to `policyName` of the enumerator
returns the enumerator. -/
theorem policy_name_roundtrip (p : PolicyKind) (h : p ≠ .unDefined) :
    (policyName p).bind policyFromName = .ok p := by
  cases p
  · exact absurd rfl h
  all_goals decide

/-- Witness for C9: the round-trip at the concrete enumerator `autoIncrement`. -/
theorem policy_name_roundtrip_witness :
    PolicyKind.autoIncrement ≠ PolicyKind.unDefined ∧
    (policyName .autoIncrement).bind policyFromName = .ok .autoIncrement :=
  ⟨by decide, policy_name_roundtrip .autoIncrement (by decide)⟩

/-- C8: under the `perEvent` policy with algorithm `EventTimestamp_v1`, the
per-event seed computation fails with the invalid-input error
(`art::errors::InvalidNumber`) for every engine id and every event data whose
`isTimeValid` is false, whatever the hash function and the configured offset. -/
theorem createEventSeed_invalid_time_fails (hash : String → Nat) (offset : Int)
    (id : EngineId) (info : EventData) (h : info.isTimeValid = false) :
    PerEventPolicy.createEventSeed hash .saEventTimestamp_v1 offset id info
      = .error .invalidNumber := by
  simp [PerEventPolicy.createEventSeed, EventTimestamp_v1, h]

/-- Witness for C8: the failure at concrete event data with an invalid
timestamp. -/
theorem createEventSeed_invalid_time_fails_witness :
    evtNoTime.isTimeValid = false ∧
    PerEventPolicy.createEventSeed (fun _ => 0) .saEventTimestamp_v1 0 idM
        evtNoTime
      = .error .invalidNumber :=
  ⟨rfl, createEventSeed_invalid_time_fails (fun _ => 0) 0 idM evtNoTime rfl⟩

/-- C3 (counterexample): for the frozen engine `idM`, `reseedEvent` returns
`InvalidSeed` and performs no seeder invocation, even though the per-event seed
the policy computes for `(idM, evtTest)` is 77, a valid seed; the per-event
seed is not even computed or cached (the per-event cache stays empty). So a
frozen engine is indistinguishable, through the return value, from a policy
that returned an invalid seed. -/
theorem reseedEvent_frozen_counterexample :
    (smFrozen.reseedEvent idM evtTest).map (fun r => (r.1, r.2.2))
      = .ok (InvalidSeed, [])
    ∧ (smFrozen.reseedEvent idM evtTest).map
        (fun r => mapFind? r.2.1.knownEventSeeds idM) = .ok none
    ∧ smFrozen.policyGetEventSeed idM evtTest = .ok 77
    ∧ (77 : Seed) ≠ InvalidSeed := by decide

/-- C3 (amended): for every registered engine id that is frozen,
`reseedEvent(id, data)` returns `InvalidSeed` immediately: it does not invoke
the seeder, does not compute the per-event seed, and leaves the state
unchanged. -/
theorem reseedEvent_frozen_returns_invalid (sm : SeedMaster) (id : EngineId)
    (data : EventData) (info : EngineInfo)
    (h : mapFind? sm.engineData id = some info) (hf : info.isFrozen = true) :
    sm.reseedEvent id data = .ok (InvalidSeed, sm, []) := by
  simp [SeedMaster.reseedEvent, h, hf]

/-- Witness for C3: the frozen fixture satisfies the hypotheses and
`reseedEvent` returns `InvalidSeed` with no seeder call. -/
theorem reseedEvent_frozen_returns_invalid_witness :
    mapFind? smFrozen.engineData idM
      = some { hasSeeder := true, autoseed := false }
    ∧ EngineInfo.isFrozen { hasSeeder := true, autoseed := false } = true
    ∧ smFrozen.reseedEvent idM evtTest = .ok (InvalidSeed, smFrozen, []) :=
  ⟨by decide, by decide,
    reseedEvent_frozen_returns_invalid smFrozen idM evtTest
      { hasSeeder := true, autoseed := false } (by decide) (by decide)⟩

/-- C4: evaluation at the failing input: engine `idM` is registered with no
seeder and is not frozen, and the policy seed is the valid value 100; `reseed`
returns 100 — not `InvalidSeed` as the claim and the function's own
documentation state — while invoking no seeder. -/
theorem reseed_no_seeder_returns_policy_seed :
    (smNoSeeder.reseed idM).map (fun r => (r.1, r.2.2)) = .ok (100, [])
    ∧ smNoSeeder.hasSeeder idM = false
    ∧ (100 : Seed) ≠ InvalidSeed := by decide

/-- C5 (counterexample): constructing the `perEvent` policy from a
configuration whose nested `initSeedPolicy` names `perEvent` does not fail:
no configuration error is raised and the factory succeeds with a `perEvent`
policy. -/
theorem perEvent_nested_no_config_error :
    makeRandomSeedPolicy cfgNestedPerEvent ≠ Except.error Err.configError
    ∧ (makeRandomSeedPolicy cfgNestedPerEvent).map (fun p => p.1)
      = .ok .perEvent := by decide

/-- C5 (amended): a nested `initSeedPolicy` naming `perEvent` is accepted: the
factory and `PerEventPolicy::configure` both succeed, building an outer
`perEvent` policy (default algorithm, offset 0) whose pre-event policy is
itself a `perEvent` policy with no further nesting. -/
theorem perEvent_nested_result :
    makeRandomSeedPolicy cfgNestedPerEvent
      = .ok (.perEvent, .perEventWithInitP .saEventTimestamp_v1 0 .perEvent
          (.perEventP .saEventTimestamp_v1 0))
    ∧ PerEventPolicy.configure cfgNestedPerEvent
      = .ok (.perEventWithInitP .saEventTimestamp_v1 0 .perEvent
          (.perEventP .saEventTimestamp_v1 0)) := by decide

/-- Helper for C1: a resolved override equal to zero (`InvalidSeed`) takes the
same fallback branch of `extractSeed` as an absent override. -/
theorem extractSeed_some_zero (svc : NuRandomService) (id : EngineId) :
    svc.extractSeed id (some 0) = svc.extractSeed id none := rfl

/-- C1 (counterexample): registering with override candidates
`["Seed", "MySeed"]` against the config `{ Seed: 0, MySeed: 7 }` does not
resolve the override to 7: resolution stops at the first present key `Seed`
with value 0, which disables the override; the registration returns the policy
seed 100, `getCurrentSeed` yields 100 (not 7) and the engine is not frozen. -/
theorem override_zero_counterexample :
    NuRandomService.readSeedParameter psetSeedZero ["Seed", "MySeed"] = some 0
    ∧ (svcTest.registerEngineFromParameters true "" psetSeedZero
        ["Seed", "MySeed"]).map
        (fun r => (r.1, r.2.1.seeds.getCurrentSeed idM,
          (mapFind? r.2.1.seeds.engineData idM).map EngineInfo.isFrozen))
      = .ok (100, 100, some false)
    ∧ (100 : Seed) ≠ 7 := by decide

/-- C1 (amended): when the configuration binds `Seed` to 0, override
resolution for candidates `["Seed", "MySeed"]` returns `Seed`'s value 0 (the
first present key wins; later candidates are never consulted), and a resolved
0 is treated as no override at all: the registration behaves exactly as with
no override parameter — the engine gets the policy seed and is not frozen. -/
theorem override_zero_amended (svc : NuRandomService) (seeder : Bool)
    (instanceName : String) (pset : ParameterSet)
    (h : psGetSeedIfPresent pset "Seed" = some 0) :
    NuRandomService.readSeedParameter pset ["Seed", "MySeed"] = some 0
    ∧ svc.registerEngineFromParameters seeder instanceName pset
        ["Seed", "MySeed"]
      = svc.registerEngine seeder instanceName none := by
  have h1 : NuRandomService.readSeedParameter pset ["Seed", "MySeed"]
      = some 0 := by
    unfold NuRandomService.readSeedParameter
    rw [h]
  refine ⟨h1, ?_⟩
  unfold NuRandomService.registerEngineFromParameters
  rw [h1]
  simp only [NuRandomService.registerEngine, extractSeed_some_zero]

/-- Witness for C1 (amended): the hypotheses hold at the concrete config
`{ Seed: 0, MySeed: 7 }` and the concrete fresh service. -/
theorem override_zero_amended_witness :
    psGetSeedIfPresent psetSeedZero "Seed" = some 0
    ∧ (NuRandomService.readSeedParameter psetSeedZero ["Seed", "MySeed"]
        = some 0
      ∧ svcTest.registerEngineFromParameters true "" psetSeedZero
          ["Seed", "MySeed"]
        = svcTest.registerEngine true "" none) :=
  ⟨by decide, override_zero_amended svcTest true "" psetSeedZero (by decide)⟩

/-- C2: evaluation at the failing input: registering an engine with a seeder
and override seed 42 while the policy yields 100 freezes the engine at 42 and
reports current seed 42, but the seeder is invoked with the policy-computed
seed 100 — never with the override value 42. -/
theorem registerEngine_override_seeder_gets_policy_seed :
    (svcTest.registerEngine true "" (some 42)).map
        (fun r => (r.1, r.2.1.seeds.getCurrentSeed idM,
          (mapFind? r.2.1.seeds.engineData idM).map EngineInfo.isFrozen,
          r.2.2))
      = .ok (42, 42, some true, [(idM, 100)])
    ∧ (100 : Seed) ≠ 42 := by decide

/-- Helper: `getSeed` on a state whose configured-seed cache holds the engine
returns the cached seed and leaves the state unchanged. -/
theorem getSeed_of_configured (sm : SeedMaster) (id : EngineId) (s : Seed)
    (h : mapFind? sm.configuredSeeds id = some s) :
    sm.getSeed id = .ok (s, sm) := by
  unfold SeedMaster.getSeed
  rw [h]

/-- Helper: `getEventSeed` never modifies the configured-seed cache. -/
theorem getEventSeed_configuredSeeds (sm sm2 : SeedMaster) (data : EventData)
    (id : EngineId) (r : Seed) (h : sm.getEventSeed data id = .ok (r, sm2)) :
    sm2.configuredSeeds = sm.configuredSeeds := by
  unfold SeedMaster.getEventSeed at h
  split at h
  · injection h with h2
    injection h2 with ha hb
    subst hb
    rfl
  · split at h
    · exact absurd h (by simp)
    · split at h
      · exact absurd h (by simp)
      · split at h
        · injection h with h2
          injection h2 with ha hb
          subst hb
          rfl
        · injection h with h2
          injection h2 with ha hb
          subst hb
          rfl

/-- C6 (counterexample): after freezing engine `idM` at seed 5, a
`getEventSeed` call computing the valid per-event seed 77 overwrites the
current seed: `getCurrentSeed` changes from 5 to 77, contradicting that the
current seed never changes again. -/
theorem freeze_then_getEventSeed_counterexample :
    ((smEngine.freezeSeed idM 5).bind (fun sm1 =>
        (sm1.getEventSeed evtTest idM).map
          (fun r => (sm1.getCurrentSeed idM, r.2.getCurrentSeed idM))))
      = .ok (5, 77)
    ∧ (77 : Seed) ≠ 5 := by decide

/-- C6 (amended): after `freezeSeed(id, s)` both the configured and the
current seed of `id` equal `s`; the configured seed never changes again:
`getSeed(id)` returns `s` without touching the state, `reseed(id)` returns
`InvalidSeed`, and even a later `getEventSeed` leaves the configured seed at
`s` (so `getSeed` still returns `s` afterwards). Only the current seed can be
overwritten, by a `getEventSeed` call that computes a valid per-event seed. -/
theorem freezeSeed_invariant (sm sm1 : SeedMaster) (id : EngineId) (s : Seed)
    (h : sm.freezeSeed id s = .ok sm1) :
    sm1.getCurrentSeed id = s
    ∧ mapFind? sm1.configuredSeeds id = some s
    ∧ sm1.getSeed id = .ok (s, sm1)
    ∧ sm1.reseed id = .ok (InvalidSeed, sm1, [])
    ∧ (∀ data r sm2, sm1.getEventSeed data id = .ok (r, sm2) →
        mapFind? sm2.configuredSeeds id = some s
        ∧ sm2.getSeed id = .ok (s, sm2)) := by
  unfold SeedMaster.freezeSeed at h
  split at h
  · exact absurd h (by simp)
  · rename_i info hinfo
    injection h with h2
    subst h2
    have hcur : mapFind? (mapInsert sm.currentSeeds id s) id = some s :=
      mapFind?_insert_self sm.currentSeeds id s
    have hconf : mapFind? (mapInsert sm.configuredSeeds id s) id = some s :=
      mapFind?_insert_self sm.configuredSeeds id s
    have heng : mapFind? (mapInsert sm.engineData id info.freeze) id
        = some info.freeze := mapFind?_insert_self sm.engineData id info.freeze
    refine ⟨?_, hconf, ?_, ?_, ?_⟩
    · simp [SeedMaster.getCurrentSeed, SeedMaster.getSeedFromMap, hcur]
    · exact getSeed_of_configured _ id s hconf
    · have heng2 : mapFind? (mapInsert sm.engineData id
          { hasSeeder := info.hasSeeder, autoseed := false }) id
          = some { hasSeeder := info.hasSeeder, autoseed := false } :=
        mapFind?_insert_self sm.engineData id _
      simp [SeedMaster.reseed, heng2, EngineInfo.isFrozen, EngineInfo.freeze]
    · intro data r sm2 hev
      have hpres := getEventSeed_configuredSeeds _ sm2 data id r hev
      have hc2 : mapFind? sm2.configuredSeeds id = some s := by
        rw [hpres]
        exact hconf
      exact ⟨hc2, getSeed_of_configured sm2 id s hc2⟩

/-- Witness for C6 (amended): freezing the concrete registered engine at seed
5 yields the concrete frozen state, on which the invariant's conclusions hold. -/
theorem freezeSeed_invariant_witness :
    smFrozen.getCurrentSeed idM = 5
    ∧ smFrozen.getSeed idM = .ok (5, smFrozen)
    ∧ smFrozen.reseed idM = .ok (InvalidSeed, smFrozen, []) :=
  ⟨(freezeSeed_invariant smEngine smFrozen idM 5 rfl).1,
   (freezeSeed_invariant smEngine smFrozen idM 5 rfl).2.2.1,
   (freezeSeed_invariant smEngine smFrozen idM 5 rfl).2.2.2.1⟩

/-- C10: the two cases, independently of each other: whenever the computing
branch of `getSeed` (configured cache empty for `id`) produces `InvalidSeed`,
and likewise whenever the computing branch of `getEventSeed` (per-event cache
empty for `id`) produces `InvalidSeed`, a pre-existing current-seed entry for
`id` is left unchanged, and `InvalidSeed` is recorded as current only when
`id` had no current-seed entry at all. Nothing is assumed about the other
operation: in the `getEventSeed` case the configured cache may well hold a
valid seed, and vice versa. -/
theorem invalidSeed_preserves_current (sm : SeedMaster) (id : EngineId) :
    (∀ r1 sm1, mapFind? sm.configuredSeeds id = none →
      sm.getSeed id = .ok (r1, sm1) → r1 = InvalidSeed →
      (∀ v, mapFind? sm.currentSeeds id = some v →
        mapFind? sm1.currentSeeds id = some v)
      ∧ (mapFind? sm.currentSeeds id = none →
        mapFind? sm1.currentSeeds id = some InvalidSeed))
    ∧ (∀ data r2 sm2, mapFind? sm.knownEventSeeds id = none →
      sm.getEventSeed data id = .ok (r2, sm2) → r2 = InvalidSeed →
      (∀ v, mapFind? sm.currentSeeds id = some v →
        mapFind? sm2.currentSeeds id = some v)
      ∧ (mapFind? sm.currentSeeds id = none →
        mapFind? sm2.currentSeeds id = some InvalidSeed)) := by
  constructor
  · intro r1 sm1 hc1 h1 hz1
    subst hz1
    unfold SeedMaster.getSeed at h1
    split at h1
    · rename_i v hv
      rw [hc1] at hv
      exact absurd hv (by simp)
    · split at h1
      · exact absurd h1 (by simp)
      · rename_i seed hp
        split at h1
        · exact absurd h1 (by simp)
        · split at h1
          · rename_i hne
            injection h1 with h2x
            injection h2x with ha hb
            exact absurd ha hne
          · rename_i hne
            injection h1 with h2x
            injection h2x with ha hb
            subst ha
            subst hb
            constructor
            · intro v hv
              exact mapFind?_emplace_of_present sm.currentSeeds id _ v hv
            · intro hnone
              exact mapFind?_emplace_of_absent sm.currentSeeds id _ hnone
  · intro data r2 sm2 hc2 h2 hz2
    subst hz2
    unfold SeedMaster.getEventSeed at h2
    split at h2
    · rename_i v hv
      rw [hc2] at hv
      exact absurd hv (by simp)
    · split at h2
      · exact absurd h2 (by simp)
      · rename_i seed hp
        split at h2
        · exact absurd h2 (by simp)
        · split at h2
          · rename_i hne
            injection h2 with h3
            injection h3 with ha hb
            exact absurd ha hne
          · rename_i hne
            injection h2 with h3
            injection h3 with ha hb
            subst ha
            subst hb
            constructor
            · intro v hv
              exact mapFind?_emplace_of_present sm.currentSeeds id _ v hv
            · intro hnone
              exact mapFind?_emplace_of_absent sm.currentSeeds id _ hnone

/-- Witness for C10: the invalid-policy master with current seed 5 keeps the
entry at 5 under both operations; the mixed master — valid configured and
current seed 100, per-event branch computing the invalid seed — keeps its
current entry at 100 under `getEventSeed`. -/
theorem invalidSeed_preserves_current_witness :
    mapFind? smZeroAfterGetSeed.currentSeeds idM = some 5
    ∧ mapFind? smZeroAfterGetEventSeed.currentSeeds idM = some 5
    ∧ mapFind? smMixedAfterEventSeed.currentSeeds idM = some 100 :=
  ⟨((invalidSeed_preserves_current smZeroPolicy idM).1 0 smZeroAfterGetSeed
      rfl rfl rfl).1 5 rfl,
   ((invalidSeed_preserves_current smZeroPolicy idM).2 evtTest 0
      smZeroAfterGetEventSeed rfl rfl rfl).1 5 rfl,
   ((invalidSeed_preserves_current smMixedPolicy idM).2 evtTest 0
      smMixedAfterEventSeed rfl rfl rfl).1 100 rfl⟩

end Nurandom
